import Mathlib

/-!
Verification of the OpenBDR telemetry buffering and partitioned export
pipeline.  The definitions below are a shallow embedding of the logger
classes of the repository:

* `OpenBDRLogger` from `src/lib/logger.js` — the IndexedDB-backed store
  with size accounting, Hive-style partition state, and the
  `flushToFile` orchestrator that hands JSONL batches to the
  `chrome.downloads` sink.
* `NativeLogger` from `src/unnamed/part_002` — the native-messaging
  transport with correlated request/response messaging and an offline
  event buffer.

External capabilities (IndexedDB transactions, `chrome.downloads.download`,
`port.postMessage`, timers) are modelled by boolean/enumerated outcome
parameters; each successful download is recorded in a ghost `downloads`
trace so that exports can be reasoned about.  Event construction
(`Date.now()`, random id suffix, `JSON.stringify`) is abstracted: an event
carries its identifying strings and its serialized length
(`JSON.stringify(event).length`), which is all the buffering logic reads.
-/

namespace OpenBDR

/-- An event record as built by `log()`: `{timestamp, eventId, eventType,
payload, metadata}`.  The `payload`/`metadata` contents are opaque to the
buffering pipeline; only the serialized length `JSON.stringify(event).length`
is read (for size accounting), so it is carried as the field `size`. -/
structure Event where
  timestamp : String
  eventId : String
  eventType : String
  size : Nat
  deriving DecidableEq, Repr

/-- The persisted config record of `OpenBDRLogger` (`this.config` in
`src/lib/logger.js`). -/
structure Config where
  outputDir : String
  autoFlush : Bool
  fileSequence : Nat
  currentPartition : Option String
  deriving DecidableEq, Repr

/-- The mutable state of `OpenBDRLogger` (`src/lib/logger.js`): the
IndexedDB `events` store (in insertion order), the running byte count
`this.currentBufferSize`, and the config record.  `saveConfig` is modelled
by the `config` field itself being the persisted record.  The ghost field
`downloads` records every successful `chrome.downloads.download` call as a
pair (filename, exported events); it corresponds to no JS field and only
observes the external sink.  The `eventTypeCounts` statistics map and the
database handle are omitted: no verified property reads them. -/
structure LoggerState where
  events : List Event
  currentBufferSize : Nat
  config : Config
  downloads : List (String × List Event)
  deriving DecidableEq, Repr

/-- Constant `FLUSH_THRESHOLD_BYTES = 50 * 1024 * 1024` from `src/lib/logger.js`. -/
def FLUSH_THRESHOLD_BYTES : Nat := 50 * 1024 * 1024

/-- Constant `DEFAULT_OUTPUT_DIR = 'openbdr_logs'`. -/
def DEFAULT_OUTPUT_DIR : String := "openbdr_logs"

/-- The fields of a JS `Date` that the partition functions read:
`getFullYear()`, `getMonth()` (0-based), `getDate()`, `getHours()`. -/
structure DateParts where
  year : Nat
  month : Nat
  date : Nat
  hours : Nat
  deriving DecidableEq, Repr

/-- Models `String(n).padStart(2, '0')`. -/
def pad2 (n : Nat) : String :=
  let s := toString n
  if s.length < 2 then String.mk (List.replicate (2 - s.length) '0') ++ s else s

/-- Models `String(n).padStart(3, '0')`. -/
def pad3 (n : Nat) : String :=
  let s := toString n
  if s.length < 3 then String.mk (List.replicate (3 - s.length) '0') ++ s else s

/-- Function `getPartitionPath(date)` from `src/lib/logger.js`:
`year=YYYY/month=MM/day=DD/hour=HH` with zero-padded two-digit
month/day/hour (`getMonth() + 1` for the month). -/
def getPartitionPath (d : DateParts) : String :=
  "year=" ++ toString d.year ++ "/month=" ++ pad2 (d.month + 1) ++
    "/day=" ++ pad2 d.date ++ "/hour=" ++ pad2 d.hours

/-- Function `getPartitionKey(date)` from `src/lib/logger.js`:
`YYYY-MM-DD-HH`, zero-padded. -/
def getPartitionKey (d : DateParts) : String :=
  toString d.year ++ "-" ++ pad2 (d.month + 1) ++ "-" ++ pad2 d.date ++
    "-" ++ pad2 d.hours

/-- Method `checkPartitionChange()` from `src/lib/logger.js` (lines 186-200),
with the current instant passed explicitly.  If a partition key is stored
and differs from the current one, the sequence is reset to 1, the key is
updated and persisted, and `true` is returned.  If no key is stored yet,
the key is recorded (the sequence is left alone) and — falling through to
the final statement — `false` is returned.  Otherwise nothing changes and
`false` is returned. -/
def checkPartitionChange (now : DateParts) (s : LoggerState) :
    LoggerState × Bool :=
  let currentKey := getPartitionKey now
  match s.config.currentPartition with
  | some p =>
    if p ≠ currentKey then
      ({ s with config :=
          { s.config with fileSequence := 1, currentPartition := some currentKey } },
        true)
    else
      (s, false)
  | none =>
    ({ s with config := { s.config with currentPartition := some currentKey } },
      false)

/-- Method `getFilename()` from `src/lib/logger.js`:
`{outputDir}/{partitionPath}/events_{sequence:03d}.jsonl`. -/
def getFilename (now : DateParts) (s : LoggerState) : String :=
  s.config.outputDir ++ "/" ++ getPartitionPath now ++ "/events_" ++
    pad3 s.config.fileSequence ++ ".jsonl"

/-- Method `clearEvents()` from `src/lib/logger.js` (lines 328-341): the store is
emptied and the running size reset to zero (the transaction is atomic: on
failure nothing is cleared, modelled by the caller not applying this
function). -/
def clearEvents (s : LoggerState) : LoggerState :=
  { s with events := [], currentBufferSize := 0 }

/-- Method `flushToFile(reason)` from `src/lib/logger.js` (lines 284-323); the
outcome of the `chrome.downloads.download` call is the parameter `sinkOk`.
Control flow of the source: run `checkPartitionChange`; snapshot all
events; if the snapshot is empty, return `null` (modelled `Except.ok
none`); otherwise serialize, compute the filename, and download.  On
download success: clear the store, increment `fileSequence`, persist, and
return the filename.  On download failure the error is rethrown
(`Except.error`) and no further state is touched. -/
def flushToFile (now : DateParts) (sinkOk : Bool) (s : LoggerState) :
    LoggerState × Except String (Option String) :=
  let s1 := (checkPartitionChange now s).1
  if s1.events.isEmpty then
    (s1, Except.ok none)
  else
    let filename := getFilename now s1
    if sinkOk then
      let s2 := clearEvents { s1 with downloads := s1.downloads ++ [(filename, s1.events)] }
      let s3 := { s2 with config := { s2.config with fileSequence := s2.config.fileSequence + 1 } }
      (s3, Except.ok (some filename))
    else
      (s1, Except.error "download failed")

/-- Method `log(eventType, payload, metadata)` from `src/lib/logger.js`
(lines 214-251), with the already-assembled event record passed in.
`persistOk` is the outcome of the IndexedDB `add` transaction: the source
awaits a promise that rejects on `tx.onerror`, and there is no surrounding
try/catch, so a storage failure propagates out of `log` (modelled
`Except.error`) before any tracking is updated.  On success the running
size grows by the event's serialized length and, if the threshold is
reached, `flushToFile('size_limit')` is awaited — whose thrown error, if
any, also propagates out of `log`. -/
def log (e : Event) (persistOk : Bool) (now : DateParts) (sinkOk : Bool)
    (s : LoggerState) : LoggerState × Except String Event :=
  if persistOk then
    let s1 := { s with events := s.events ++ [e],
                       currentBufferSize := s.currentBufferSize + e.size }
    if FLUSH_THRESHOLD_BYTES ≤ s1.currentBufferSize then
      let fr := flushToFile now sinkOk s1
      match fr.2 with
      | Except.error msg => (fr.1, Except.error msg)
      | Except.ok _ => (fr.1, Except.ok e)
    else
      (s1, Except.ok e)
  else
    (s, Except.error "storage error")

/-- An operation of the facade, with the outcomes of the external
capabilities it may touch: a `log()` call (event, IndexedDB outcome,
current instant, download outcome) or a `clear()` call (`clearEvents`,
whose transaction outcome is `ok` — on failure the atomic transaction
leaves the state unchanged). -/
inductive Op where
  | logOp (e : Event) (persistOk : Bool) (now : DateParts) (sinkOk : Bool)
  | clearOp (ok : Bool)
  deriving DecidableEq, Repr

/-- Run a sequence of facade operations. -/
def runOps : List Op → LoggerState → LoggerState
  | [], s => s
  | Op.logOp e persistOk now sinkOk :: ops, s =>
      runOps ops (log e persistOk now sinkOk s).1
  | Op.clearOp ok :: ops, s =>
      runOps ops (if ok then clearEvents s else s)

/-- Sum of serialized sizes of a list of events. -/
def sumSizes (es : List Event) : Nat := (es.map Event.size).sum

/-- The running-size invariant of §3 of the spec:
`runningSize == sum(serializedSize(e) for e in store)`. -/
def sizeInv (s : LoggerState) : Prop :=
  s.currentBufferSize = sumSizes s.events

instance (s : LoggerState) : Decidable (sizeInv s) := by
  unfold sizeInv; infer_instance

/-- The fresh state built by the `OpenBDRLogger` constructor. -/
def initialState : LoggerState :=
  { events := []
    currentBufferSize := 0
    config :=
      { outputDir := DEFAULT_OUTPUT_DIR
        autoFlush := true
        fileSequence := 1
        currentPartition := none }
    downloads := [] }

/-- A sample instant: 2024-01-15T23:xx local time
(`getMonth() = 0` for January). -/
def sampleDate : DateParts := { year := 2024, month := 0, date := 15, hours := 23 }

/-- A small concrete event. -/
def sampleEvent : Event :=
  { timestamp := "2024-01-15T23:00:00.000Z"
    eventId := "1705359600000-aaaaaaaaa"
    eventType := "navigation.completed"
    size := 120 }

/-- A second small concrete event. -/
def sampleEvent2 : Event :=
  { timestamp := "2024-01-15T23:10:00.000Z"
    eventId := "1705360200000-bbbbbbbbb"
    eventType := "tab.created"
    size := 95 }

/-- A concrete event whose serialized size alone reaches the 50MB flush
threshold. -/
def bigEvent : Event :=
  { timestamp := "2024-01-15T23:20:00.000Z"
    eventId := "1705360800000-ccccccccc"
    eventType := "page.load"
    size := 52428800 }

/-- The mutable state of `NativeLogger` (`src/unnamed/part_002`): the
`connected` flag, the offline `eventBuffer`, the `messageId` counter, and
the pending-request map `callbacks` (a `Map` keyed by correlation id;
modelled as the list of pending ids, in insertion order).  The `port`,
reconnect counters and cached `status` record are omitted: no verified
property reads them, and the claims under study presuppose a live port. -/
structure NativeState where
  connected : Bool
  eventBuffer : List Event
  messageId : Nat
  callbacks : List Nat
  deriving DecidableEq, Repr

/-- The fate of one `sendMessage` request against the native host:
the correlated response arrived within the 5s window (`ok`), the timeout
fired first (`timeout`), or `port.postMessage` threw (`sendError`). -/
inductive SendOutcome where
  | ok
  | timeout
  | sendError
  deriving DecidableEq, Repr

/-- Method `sendMessage(message)` from `src/unnamed/part_002` (lines 133-162),
assuming a live port.  A fresh correlation id `++this.messageId` is
allocated and its callback registered in the pending map.  Then, whatever
the outcome, the source removes the entry for that id: `handleMessage`
deletes it when the matching response arrives (resolving the promise), the
timeout handler deletes it before rejecting, and the `postMessage` catch
block deletes it before rejecting.  The returned flag is whether the
promise resolved. -/
def sendMessage (outcome : SendOutcome) (s : NativeState) : NativeState × Bool :=
  let id := s.messageId + 1
  let cbs := s.callbacks ++ [id]
  match outcome with
  | SendOutcome.ok =>
      ({ s with messageId := id, callbacks := cbs.filter (fun i => i ≠ id) }, true)
  | SendOutcome.timeout =>
      ({ s with messageId := id, callbacks := cbs.filter (fun i => i ≠ id) }, false)
  | SendOutcome.sendError =>
      ({ s with messageId := id, callbacks := cbs.filter (fun i => i ≠ id) }, false)

/-- Method `NativeLogger.log(eventType, payload, metadata)` from
`src/unnamed/part_002` (lines 212-246), with the assembled event passed
in.  While connected, the event is sent as a correlated `LOG_EVENT`
request; if that rejects (timeout or send failure) the catch block pushes
the event onto `eventBuffer` — with no size check on this branch.  While
disconnected, the event is pushed onto `eventBuffer` and then, if the
buffer length exceeds 1000, the buffer is replaced by its last 500
entries (`this.eventBuffer.slice(-500)`). -/
def nativeLog (e : Event) (outcome : SendOutcome) (s : NativeState) :
    NativeState × Event :=
  if s.connected then
    let sr := sendMessage outcome s
    if sr.2 then
      (sr.1, e)
    else
      ({ sr.1 with eventBuffer := sr.1.eventBuffer ++ [e] }, e)
  else
    let buf := s.eventBuffer ++ [e]
    if 1000 < buf.length then
      ({ s with eventBuffer := buf.drop (buf.length - 500) }, e)
    else
      ({ s with eventBuffer := buf }, e)

/-- Run a sequence of `NativeLogger.log` calls with a common send outcome
(irrelevant on the disconnected branch, which never sends). -/
def runNativeLogs (outcome : SendOutcome) : List Event → NativeState → NativeState
  | [], s => s
  | e :: es, s => runNativeLogs outcome es (nativeLog e outcome s).1

/-- The fresh state built by the `NativeLogger` constructor. -/
def initialNativeState : NativeState :=
  { connected := false, eventBuffer := [], messageId := 0, callbacks := [] }

/-- An event stream `e 0, e 1, ...` of `n` distinct unit-size events, used
to drive the offline-buffer scenarios. -/
def mkEvents (n : Nat) : List Event :=
  (List.range n).map fun i =>
    { timestamp := "t", eventId := toString i, eventType := "page.load", size := 1 }

/-!
Interleaving model of `flushToFile`.  The body of
`OpenBDRLogger.flushToFile` suspends at each `await` (`getAllEvents`,
`chrome.downloads.download`, `clearEvents`, `saveConfig`); between any two
suspension points another asynchronous invocation of `flushToFile` may
run.  A flush invocation is modelled as a thread stepping through the
synchronous blocks of the source:

* step 1 (from `entered`): run `checkPartitionChange`, then suspend
  awaiting `getAllEvents`;
* step 2 (from `partitionChecked`): receive the snapshot of the shared
  store; if it is empty, finish with `null`; otherwise compute the JSONL
  payload and the filename and suspend awaiting
  `chrome.downloads.download`;
* step 3 (from `downloading`): the download resolves (`sinkOk` true: the
  file is written, then the store is cleared, `fileSequence` incremented
  and persisted, and the filename returned) or rejects (`sinkOk` false:
  the error is rethrown).

There is no guard in the source connecting concurrent invocations: each
thread owns only its program counter and locals, and all of them share
the one `LoggerState`. -/

instance : DecidableEq (Except String (Option String)) := fun a b =>
  match a, b with
  | Except.ok x, Except.ok y => decidable_of_iff (x = y) (by simp)
  | Except.ok _, Except.error _ => isFalse (by simp)
  | Except.error _, Except.ok _ => isFalse (by simp)
  | Except.error x, Except.error y => decidable_of_iff (x = y) (by simp)

/-- Program counter and locals of one in-flight `flushToFile` invocation. -/
inductive FlushPC where
  | entered
  | partitionChecked
  | downloading (snapshot : List Event) (filename : String)
  | finished (result : Except String (Option String))
  deriving DecidableEq, Repr

/-- One step of an in-flight `flushToFile` thread against the shared
logger state; `now` is the instant it reads the clock, `sinkOk` the fate
of its download.  A finished thread does not move. -/
def flushStep (now : DateParts) (sinkOk : Bool)
    (shared : LoggerState) (pc : FlushPC) : LoggerState × FlushPC :=
  match pc with
  | FlushPC.entered =>
      ((checkPartitionChange now shared).1, FlushPC.partitionChecked)
  | FlushPC.partitionChecked =>
      if shared.events.isEmpty then
        (shared, FlushPC.finished (Except.ok none))
      else
        (shared, FlushPC.downloading shared.events (getFilename now shared))
  | FlushPC.downloading snapshot filename =>
      if sinkOk then
        let s2 := clearEvents
          { shared with downloads := shared.downloads ++ [(filename, snapshot)] }
        let s3 := { s2 with config :=
            { s2.config with fileSequence := s2.config.fileSequence + 1 } }
        (s3, FlushPC.finished (Except.ok (some filename)))
      else
        (shared, FlushPC.finished (Except.error "download failed"))
  | FlushPC.finished r => (shared, FlushPC.finished r)

/-- Two concurrent `flushToFile` invocations driven by an explicit
schedule: `false` steps the first thread, `true` the second.  Both threads
see the same clock and both downloads succeed, matching the scenario of
the concurrency claim. -/
def runTwoFlushes (now : DateParts) :
    List Bool → LoggerState × FlushPC × FlushPC → LoggerState × FlushPC × FlushPC
  | [], st => st
  | pick :: rest, (shared, pc1, pc2) =>
      if pick then
        let r := flushStep now true shared pc2
        runTwoFlushes now rest (r.1, pc1, r.2)
      else
        let r := flushStep now true shared pc1
        runTwoFlushes now rest (r.1, r.2, pc2)

/-! ## Helper lemmas -/

/-- Lemma: `checkPartitionChange` never touches the event store, the running
size, or the download trace, and it either leaves `fileSequence` alone or
resets it to 1. -/
theorem checkPartitionChange_effects (now : DateParts) (s : LoggerState) :
    (checkPartitionChange now s).1.events = s.events ∧
    (checkPartitionChange now s).1.currentBufferSize = s.currentBufferSize ∧
    (checkPartitionChange now s).1.downloads = s.downloads ∧
    ((checkPartitionChange now s).1.config.fileSequence = s.config.fileSequence ∨
      (checkPartitionChange now s).1.config.fileSequence = 1) := by
  unfold checkPartitionChange
  cases h : s.config.currentPartition with
  | none => simp
  | some p =>
    by_cases hp : p = getPartitionKey now <;> simp [hp]

/-- Lemma: `checkPartitionChange` is the identity when the stored partition key
matches the current one. -/
theorem checkPartitionChange_same (now : DateParts) (s : LoggerState)
    (h : s.config.currentPartition = some (getPartitionKey now)) :
    checkPartitionChange now s = (s, false) := by
  unfold checkPartitionChange
  simp [h]

/-! ## C5 — rollover detection -/

/-- A config state as left by earlier activity: partition never set,
`fileSequence` already at 5. -/
def stateSeqFive : LoggerState :=
  { initialState with config := { initialState.config with fileSequence := 5 } }

/-- C5 (counterexample): the claim says that whenever the current partition
key differs from the stored one — including the never-set initial state —
`checkPartitionChange` sets `fileSequence` to 1 and returns `true`.  In the
never-set state with `fileSequence = 5`, the source records the key but
returns `false` and leaves `fileSequence` at 5. -/
theorem checkPartitionChange_initial_returns_false :
    (checkPartitionChange sampleDate stateSeqFive).2 = false ∧
    (checkPartitionChange sampleDate stateSeqFive).1.config.fileSequence = 5 ∧
    (checkPartitionChange sampleDate stateSeqFive).1.config.currentPartition =
      some (getPartitionKey sampleDate) := by
  decide

/-- C5 (amended): `checkPartitionChange` compares the current instant's
partition key with the stored `currentPartition`.  When a key is stored
and differs, it sets `fileSequence` to 1, records the new key in the
persisted config, and returns `true`.  In the never-set initial state it
records the key but leaves `fileSequence` unchanged and returns `false`.
When the stored key equals the current one it returns `false` and changes
nothing. -/
theorem checkPartitionChange_case_analysis (now : DateParts) (s : LoggerState) :
    (∀ p, s.config.currentPartition = some p → p ≠ getPartitionKey now →
      checkPartitionChange now s =
        ({ s with config :=
            { s.config with
              fileSequence := 1
              currentPartition := some (getPartitionKey now) } }, true)) ∧
    (s.config.currentPartition = none →
      checkPartitionChange now s =
        ({ s with config :=
            { s.config with currentPartition := some (getPartitionKey now) } }, false)) ∧
    (s.config.currentPartition = some (getPartitionKey now) →
      checkPartitionChange now s = (s, false)) := by
  refine ⟨?_, ?_, ?_⟩
  · intro p hp hne
    unfold checkPartitionChange
    simp [hp, hne]
  · intro h
    unfold checkPartitionChange
    simp [h]
  · intro h
    exact checkPartitionChange_same now s h

/-- Witness for `checkPartitionChange_case_analysis`: all three cases at
concrete states (stored key differing, never-set, matching). -/
theorem checkPartitionChange_case_analysis_witness :
    (checkPartitionChange sampleDate
        { initialState with config :=
          { initialState.config with currentPartition := some "2024-01-14-07" } } =
      ({ initialState with config :=
          { initialState.config with
            fileSequence := 1
            currentPartition := some (getPartitionKey sampleDate) } }, true)) ∧
    (checkPartitionChange sampleDate initialState =
      ({ initialState with config :=
          { initialState.config with
            currentPartition := some (getPartitionKey sampleDate) } }, false)) ∧
    (checkPartitionChange sampleDate
        { initialState with config :=
          { initialState.config with
            currentPartition := some (getPartitionKey sampleDate) } } =
      ({ initialState with config :=
          { initialState.config with
            currentPartition := some (getPartitionKey sampleDate) } }, false)) := by
  refine ⟨?_, ?_, ?_⟩
  · exact (checkPartitionChange_case_analysis sampleDate _).1 "2024-01-14-07" rfl
      (by decide)
  · exact (checkPartitionChange_case_analysis sampleDate _).2.1 rfl
  · exact (checkPartitionChange_case_analysis sampleDate _).2.2 rfl

/-! ## C6 — storage failure on append -/

/-- C6 (counterexample): the claim says `log()` never fails visibly.  With
the IndexedDB `add` transaction failing, the concrete call rejects with
the storage error — the failure is propagated to the producer. -/
theorem log_storage_failure_is_visible :
    (log sampleEvent false sampleDate true initialState).2 =
      Except.error "storage error" := rfl

/-- C6 (amended): a persistence-layer error on append is propagated out of
`log()` to the producer (the transaction's rejection is not caught): the
call fails with the storage error, the event is not appended, and the
state — which maintains no dropped-events counter, since the source has
none — is unchanged. -/
theorem log_propagates_storage_failure (e : Event) (now : DateParts)
    (sinkOk : Bool) (s : LoggerState) :
    log e false now sinkOk s = (s, Except.error "storage error") := rfl

/-- Normal form of a flush whose store snapshot is empty: `null` is
returned and only the partition check ran. -/
theorem flushToFile_empty_eq (now : DateParts) (b : Bool) (s : LoggerState)
    (he : (checkPartitionChange now s).1.events = []) :
    flushToFile now b s = ((checkPartitionChange now s).1, Except.ok none) := by
  unfold flushToFile
  simp [he]

/-- Normal form of a flush whose download fails: the error is rethrown and
the state is the one left by the partition check. -/
theorem flushToFile_fail_eq (now : DateParts) (s : LoggerState)
    (hne : (checkPartitionChange now s).1.events ≠ []) :
    flushToFile now false s =
      ((checkPartitionChange now s).1, Except.error "download failed") := by
  unfold flushToFile
  simp [List.isEmpty_iff, hne]

/-- Normal form of a flush whose download succeeds (on a nonempty
snapshot): the snapshot is recorded as a download under the computed
filename, the store is cleared, and the file sequence advances. -/
theorem flushToFile_success_eq (now : DateParts) (s : LoggerState)
    (hne : (checkPartitionChange now s).1.events ≠ []) :
    flushToFile now true s =
      ({ events := []
         currentBufferSize := 0
         config :=
           { (checkPartitionChange now s).1.config with
             fileSequence := (checkPartitionChange now s).1.config.fileSequence + 1 }
         downloads := (checkPartitionChange now s).1.downloads ++
           [(getFilename now (checkPartitionChange now s).1,
             (checkPartitionChange now s).1.events)] },
        Except.ok (some (getFilename now (checkPartitionChange now s).1))) := by
  unfold flushToFile clearEvents
  simp [List.isEmpty_iff, hne]

/-! ## C1 — sink failure leaves the store untouched -/

/-- C1: when the `chrome.downloads.download` call of a flush throws, the
event store is left untouched — no buffered event is removed, the running
size is unchanged, nothing was exported — the file sequence is not
advanced (it is at most its prior value; a concurrent rollover can only
reset it to 1), and the failure is surfaced to the caller as a thrown
error, so the same events are eligible for the next flush attempt. -/
theorem flush_sink_failure_leaves_store_untouched (now : DateParts)
    (s : LoggerState) (hseq : 1 ≤ s.config.fileSequence) (hne : s.events ≠ []) :
    (flushToFile now false s).1.events = s.events ∧
    (flushToFile now false s).1.currentBufferSize = s.currentBufferSize ∧
    (flushToFile now false s).1.downloads = s.downloads ∧
    (flushToFile now false s).1.config.fileSequence ≤ s.config.fileSequence ∧
    (flushToFile now false s).2 = Except.error "download failed" := by
  obtain ⟨he, hb, hd, hs⟩ := checkPartitionChange_effects now s
  rw [flushToFile_fail_eq now s (by rw [he]; exact hne)]
  refine ⟨he, hb, hd, ?_, rfl⟩
  show (checkPartitionChange now s).1.config.fileSequence ≤ s.config.fileSequence
  rcases hs with h | h
  · exact h.le
  · omega

/-- Witness for `flush_sink_failure_leaves_store_untouched` at a concrete
one-event state. -/
theorem flush_sink_failure_leaves_store_untouched_witness :
    (flushToFile sampleDate false
        { initialState with events := [sampleEvent], currentBufferSize := 120 }).1.events =
      [sampleEvent] ∧
    (flushToFile sampleDate false
        { initialState with events := [sampleEvent], currentBufferSize := 120 }).2 =
      Except.error "download failed" := by
  have h := flush_sink_failure_leaves_store_untouched sampleDate
    { initialState with events := [sampleEvent], currentBufferSize := 120 }
    (by decide) (by decide)
  exact ⟨h.1, h.2.2.2.2⟩

/-- Lemma: `checkPartitionChange` always leaves the stored partition key equal to
the current instant's key. -/
theorem checkPartitionChange_sets_key (now : DateParts) (s : LoggerState) :
    (checkPartitionChange now s).1.config.currentPartition =
      some (getPartitionKey now) := by
  unfold checkPartitionChange
  cases h : s.config.currentPartition with
  | none => simp
  | some p => by_cases hp : p = getPartitionKey now <;> simp [hp, h]

/-! ## C3 — empty flush is a NoOp; flush-twice behaviour -/

/-- C3: a flush over an empty store returns `null` and produces no file;
consequently, after a successful flush of a nonempty store — which exports
exactly the buffered events to the computed filename and clears the
store — an immediately following flush (no intervening `log()`) is a NoOp:
it returns `null`, produces no file, and leaves the state exactly as the
first flush left it. -/
theorem flush_empty_noop_flush_twice (s : LoggerState) (now : DateParts) :
    (s.events = [] → ∀ b : Bool,
      (flushToFile now b s).2 = Except.ok none ∧
      (flushToFile now b s).1.downloads = s.downloads ∧
      (flushToFile now b s).1.events = []) ∧
    (s.events ≠ [] →
      (flushToFile now true s).2 =
        Except.ok (some (getFilename now (checkPartitionChange now s).1)) ∧
      (flushToFile now true s).1.downloads =
        s.downloads ++ [(getFilename now (checkPartitionChange now s).1, s.events)] ∧
      (flushToFile now true s).1.events = [] ∧
      ∀ b2 : Bool, flushToFile now b2 (flushToFile now true s).1 =
        ((flushToFile now true s).1, Except.ok none)) := by
  obtain ⟨he, hb, hd, _⟩ := checkPartitionChange_effects now s
  constructor
  · intro hemp b
    rw [flushToFile_empty_eq now b s (by rw [he, hemp])]
    exact ⟨rfl, hd, by rw [he, hemp]⟩
  · intro hne
    have hval := flushToFile_success_eq now s (by rw [he]; exact hne)
    refine ⟨by rw [hval], by rw [hval, hd, he], by rw [hval], ?_⟩
    intro b2
    have hkey : (flushToFile now true s).1.config.currentPartition =
        some (getPartitionKey now) := by
      rw [hval]
      exact checkPartitionChange_sets_key now s
    have hsame := checkPartitionChange_same now (flushToFile now true s).1 hkey
    have hempty2 : (checkPartitionChange now (flushToFile now true s).1).1.events = [] := by
      rw [hsame, hval]
    rw [flushToFile_empty_eq now b2 (flushToFile now true s).1 hempty2, hsame]

/-- Witness for `flush_empty_noop_flush_twice`: both branches at concrete
states — the empty initial store, and a store holding one event. -/
theorem flush_empty_noop_flush_twice_witness :
    ((flushToFile sampleDate true initialState).2 = Except.ok none ∧
      (flushToFile sampleDate true initialState).1.downloads = initialState.downloads) ∧
    ((flushToFile sampleDate true
        { initialState with events := [sampleEvent], currentBufferSize := 120 }).1.events = [] ∧
      ∀ b2 : Bool, flushToFile sampleDate b2
          (flushToFile sampleDate true
            { initialState with events := [sampleEvent], currentBufferSize := 120 }).1 =
        ((flushToFile sampleDate true
            { initialState with events := [sampleEvent], currentBufferSize := 120 }).1,
          Except.ok none)) := by
  constructor
  · have h := (flush_empty_noop_flush_twice initialState sampleDate).1 rfl true
    exact ⟨h.1, h.2.1⟩
  · have h := (flush_empty_noop_flush_twice
        { initialState with events := [sampleEvent], currentBufferSize := 120 }
        sampleDate).2 (by decide)
    exact ⟨h.2.2.1, h.2.2.2⟩

/-! ## C4 — file sequence discipline within a partition -/

/-- C4: within a single partition (the stored key matches the current
instant's key), `fileSequence` never decreases across a flush, and it is
incremented — by exactly one — precisely when the export was confirmed
successful on a nonempty store.  Starting from sequence 1, two successful
flushes in the partition (the store repopulated in between) return the
sequential filenames `events_001.jsonl` then `events_002.jsonl` under the
partition path, zero-padded to 3 digits. -/
theorem fileSequence_monotone_sequential_filenames (s : LoggerState)
    (now : DateParts)
    (hpart : s.config.currentPartition = some (getPartitionKey now)) :
    (∀ b : Bool, s.config.fileSequence ≤ (flushToFile now b s).1.config.fileSequence) ∧
    (∀ b : Bool, ((flushToFile now b s).1.config.fileSequence =
        s.config.fileSequence + 1 ↔ (b = true ∧ s.events ≠ []))) ∧
    (s.config.fileSequence = 1 → s.events ≠ [] →
      ∀ es2 : List Event, es2 ≠ [] →
        (flushToFile now true s).2 = Except.ok (some (s.config.outputDir ++ "/" ++
          getPartitionPath now ++ "/events_001.jsonl")) ∧
        (flushToFile now true
            { (flushToFile now true s).1 with
              events := es2
              currentBufferSize := sumSizes es2 }).2 =
          Except.ok (some (s.config.outputDir ++ "/" ++ getPartitionPath now ++
            "/events_002.jsonl"))) := by
  have hid := checkPartitionChange_same now s hpart
  refine ⟨?_, ?_, ?_⟩
  · intro b
    by_cases hemp : s.events = []
    · rw [flushToFile_empty_eq now b s (by rw [hid]; exact hemp), hid]
    · cases b
      · rw [flushToFile_fail_eq now s (by rw [hid]; exact hemp), hid]
      · rw [flushToFile_success_eq now s (by rw [hid]; exact hemp)]
        simp [hid]
  · intro b
    by_cases hemp : s.events = []
    · rw [flushToFile_empty_eq now b s (by rw [hid]; exact hemp), hid]
      simp [hemp]
    · cases b
      · rw [flushToFile_fail_eq now s (by rw [hid]; exact hemp), hid]
        simp
      · rw [flushToFile_success_eq now s (by rw [hid]; exact hemp)]
        simp [hid, hemp]
  · intro hseq hne es2 hne2
    have hval := flushToFile_success_eq now s (by rw [hid]; exact hne)
    have hfn : getFilename now (checkPartitionChange now s).1 =
        s.config.outputDir ++ "/" ++ getPartitionPath now ++ "/events_001.jsonl" := by
      rw [hid]
      unfold getFilename
      rw [hseq, show pad3 1 = "001" from by decide]
      simp only [String.append_assoc]
      rw [show ("/events_" ++ ("001" ++ ".jsonl") : String) = "/events_001.jsonl"
        from by decide]
    refine ⟨by rw [hval, hfn], ?_⟩
    have hkey2 : ({ (flushToFile now true s).1 with
        events := es2
        currentBufferSize := sumSizes es2 } : LoggerState).config.currentPartition =
        some (getPartitionKey now) := by
      rw [hval]
      show (checkPartitionChange now s).1.config.currentPartition =
        some (getPartitionKey now)
      exact checkPartitionChange_sets_key now s
    have hid2 := checkPartitionChange_same now _ hkey2
    have hval2 := flushToFile_success_eq now
      { (flushToFile now true s).1 with
        events := es2
        currentBufferSize := sumSizes es2 } (by rw [hid2]; exact hne2)
    rw [hval2, hid2]
    have hseq2 : ({ (flushToFile now true s).1 with
        events := es2
        currentBufferSize := sumSizes es2 } : LoggerState).config.fileSequence = 2 := by
      rw [hval]
      show (checkPartitionChange now s).1.config.fileSequence + 1 = 2
      rw [hid]
      show s.config.fileSequence + 1 = 2
      rw [hseq]
    have hdir2 : ({ (flushToFile now true s).1 with
        events := es2
        currentBufferSize := sumSizes es2 } : LoggerState).config.outputDir =
        s.config.outputDir := by
      rw [hval]
      show (checkPartitionChange now s).1.config.outputDir = s.config.outputDir
      rw [hid]
    unfold getFilename
    rw [hseq2, hdir2, show pad3 2 = "002" from by decide]
    simp only [String.append_assoc]
    rw [show ("/events_" ++ ("002" ++ ".jsonl") : String) = "/events_002.jsonl"
      from by decide]

/-- Witness for `fileSequence_monotone_sequential_filenames` at a concrete
one-event state in the current partition. -/
theorem fileSequence_monotone_sequential_filenames_witness :
    (flushToFile sampleDate true
        { initialState with
          events := [sampleEvent]
          currentBufferSize := 120
          config := { initialState.config with
            currentPartition := some (getPartitionKey sampleDate) } }).2 =
      Except.ok (some ("openbdr_logs" ++ "/" ++ getPartitionPath sampleDate ++
        "/events_001.jsonl")) ∧
    (flushToFile sampleDate true
        { (flushToFile sampleDate true
            { initialState with
              events := [sampleEvent]
              currentBufferSize := 120
              config := { initialState.config with
                currentPartition := some (getPartitionKey sampleDate) } }).1 with
          events := [sampleEvent2]
          currentBufferSize := sumSizes [sampleEvent2] }).2 =
      Except.ok (some ("openbdr_logs" ++ "/" ++ getPartitionPath sampleDate ++
        "/events_002.jsonl")) := by
  have h := (fileSequence_monotone_sequential_filenames
      { initialState with
        events := [sampleEvent]
        currentBufferSize := 120
        config := { initialState.config with
          currentPartition := some (getPartitionKey sampleDate) } }
      sampleDate rfl).2.2 rfl (by decide) [sampleEvent2] (by decide)
  exact h

/-! ## C2 — running-size invariant and event count -/

theorem sumSizes_append (a b : List Event) :
    sumSizes (a ++ b) = sumSizes a + sumSizes b := by
  simp [sumSizes]

theorem sizeInv_clearEvents (s : LoggerState) : sizeInv (clearEvents s) := by
  simp [sizeInv, clearEvents, sumSizes]

theorem sizeInv_checkPartitionChange (now : DateParts) (s : LoggerState)
    (h : sizeInv s) : sizeInv (checkPartitionChange now s).1 := by
  obtain ⟨he, hb, _, _⟩ := checkPartitionChange_effects now s
  unfold sizeInv at h ⊢
  rw [he, hb]
  exact h

theorem sizeInv_flushToFile (now : DateParts) (b : Bool) (s : LoggerState)
    (h : sizeInv s) : sizeInv (flushToFile now b s).1 := by
  by_cases hemp : (checkPartitionChange now s).1.events = []
  · rw [flushToFile_empty_eq now b s hemp]
    exact sizeInv_checkPartitionChange now s h
  · cases b
    · rw [flushToFile_fail_eq now s hemp]
      exact sizeInv_checkPartitionChange now s h
    · rw [flushToFile_success_eq now s hemp]
      simp [sizeInv, sumSizes]

theorem sizeInv_log (e : Event) (p : Bool) (now : DateParts) (b : Bool)
    (s : LoggerState) (h : sizeInv s) : sizeInv (log e p now b s).1 := by
  cases p
  · exact h
  · unfold log
    simp only [if_true]
    have h1 : sizeInv { s with
        events := s.events ++ [e]
        currentBufferSize := s.currentBufferSize + e.size } := by
      unfold sizeInv at h ⊢
      simp [sumSizes_append, sumSizes, h]
    by_cases ht : FLUSH_THRESHOLD_BYTES ≤ s.currentBufferSize + e.size
    · rw [if_pos ht]
      split
      · exact sizeInv_flushToFile now b _ h1
      · exact sizeInv_flushToFile now b _ h1
    · rw [if_neg ht]
      exact h1

/-- A `log` call whose IndexedDB write succeeds and whose event leaves the
running size strictly below the flush threshold just appends: no automatic
flush fires. -/
theorem log_below_threshold (e : Event) (now : DateParts) (b : Bool)
    (s : LoggerState) (hlt : s.currentBufferSize + e.size < FLUSH_THRESHOLD_BYTES) :
    log e true now b s =
      ({ s with
         events := s.events ++ [e]
         currentBufferSize := s.currentBufferSize + e.size },
        Except.ok e) := by
  unfold log
  simp only [if_true]
  rw [if_neg (by omega)]

/-- C2 (amended): the running-size invariant
`currentBufferSize = sum of serialized sizes of stored events` holds after
every sequence of operations, including appends whose persistence fails,
clears, and threshold-triggered flushes with either sink outcome.  The
count part holds in the absence of automatic flushes: for a sequence of
successful `log()` calls whose total serialized size keeps the running
size strictly below the 50MB threshold, the event count grows by exactly
the number of calls (so from a freshly cleared store it equals the number
of calls since that clear). -/
theorem runOps_sizeInv_and_count :
    (∀ (ops : List Op) (s : LoggerState), sizeInv s → sizeInv (runOps ops s)) ∧
    (∀ (es : List Event) (now : DateParts) (b : Bool) (s : LoggerState),
      s.currentBufferSize + sumSizes es < FLUSH_THRESHOLD_BYTES →
      (runOps (es.map fun e => Op.logOp e true now b) s).events.length =
        s.events.length + es.length) := by
  constructor
  · intro ops
    induction ops with
    | nil => intro s h; exact h
    | cons op ops ih =>
      intro s h
      cases op with
      | logOp e p now b =>
        exact ih _ (sizeInv_log e p now b s h)
      | clearOp ok =>
        cases ok
        · exact ih _ h
        · exact ih _ (sizeInv_clearEvents s)
  · intro es
    induction es with
    | nil => intro now b s _; simp [runOps]
    | cons e es ih =>
      intro now b s hlt
      rw [sumSizes, List.map_cons, List.sum_cons] at hlt
      have hlt1 : s.currentBufferSize + e.size < FLUSH_THRESHOLD_BYTES := by omega
      simp only [List.map_cons, runOps]
      rw [log_below_threshold e now b s hlt1]
      have := ih now b { s with
          events := s.events ++ [e]
          currentBufferSize := s.currentBufferSize + e.size }
        (by simp only [sumSizes]; omega)
      rw [this]
      simp
      omega

/-- Witness for `runOps_sizeInv_and_count`: a clear and a single
small-event log at the initial state. -/
theorem runOps_sizeInv_and_count_witness :
    sizeInv (runOps [Op.clearOp true] initialState) ∧
    (runOps ([sampleEvent].map fun e => Op.logOp e true sampleDate true)
        initialState).events.length = initialState.events.length + 1 := by
  constructor
  · exact runOps_sizeInv_and_count.1 [Op.clearOp true] initialState (by decide)
  · exact runOps_sizeInv_and_count.2 [sampleEvent] sampleDate true initialState
      (by decide)

/-- C2 (counterexample): a single successful `log()` call from the fresh
(cleared) state, with an event whose serialized size reaches the 50MB
threshold, triggers the automatic `size_limit` flush, which clears the
store — so the event count afterwards is 0, not the 1 `log()` call issued
since the last clear. -/
theorem single_log_count_not_one :
    (runOps [Op.logOp bigEvent true sampleDate true] initialState).events.length
      ≠ 1 := by
  decide

/-! ## C7 — offline buffer bound -/

/-- Length evolution of the offline buffer across one disconnected `log`:
one event is appended, and if the length then exceeds 1000 the buffer is
cut down to its last 500 entries. -/
def stepLen (l : Nat) : Nat := if 1000 < l + 1 then 500 else l + 1

/-- Iterate `stepLen`. -/
def iterLen : Nat → Nat → Nat
  | 0, l => l
  | n + 1, l => iterLen n (stepLen l)

set_option maxRecDepth 4000 in
theorem nativeLog_disconnected (e : Event) (o : SendOutcome) (s : NativeState)
    (h : s.connected = false) :
    (nativeLog e o s).1.connected = false ∧
    (nativeLog e o s).1.eventBuffer.length = stepLen s.eventBuffer.length ∧
    (nativeLog e o s).1.eventBuffer <:+ s.eventBuffer ++ [e] := by
  unfold nativeLog
  rw [h]
  simp only [Bool.false_eq_true, if_false]
  by_cases hl : 1000 < (s.eventBuffer ++ [e]).length
  · rw [if_pos hl]
    refine ⟨rfl, ?_, ?_⟩
    · rw [List.length_drop]
      simp only [List.length_append, List.length_cons, List.length_nil] at hl ⊢
      unfold stepLen
      rw [if_pos (by omega)]
      omega
    · exact List.drop_suffix _ _
  · rw [if_neg hl]
    refine ⟨rfl, ?_, ?_⟩
    · simp only [List.length_append, List.length_cons, List.length_nil] at hl ⊢
      unfold stepLen
      rw [if_neg (by omega)]
    · exact List.suffix_refl _

theorem runNativeLogs_disconnected (o : SendOutcome) (es : List Event)
    (s : NativeState) (h : s.connected = false) :
    (runNativeLogs o es s).connected = false ∧
    (runNativeLogs o es s).eventBuffer.length =
      iterLen es.length s.eventBuffer.length ∧
    (runNativeLogs o es s).eventBuffer <:+ s.eventBuffer ++ es := by
  induction es generalizing s with
  | nil =>
    refine ⟨h, rfl, ?_⟩
    rw [List.append_nil]
    exact List.suffix_refl _
  | cons e es ih =>
    obtain ⟨hc, hl, hs⟩ := nativeLog_disconnected e o s h
    obtain ⟨hc2, hl2, hs2⟩ := ih (nativeLog e o s).1 hc
    refine ⟨hc2, ?_, ?_⟩
    · rw [show runNativeLogs o (e :: es) s = runNativeLogs o es (nativeLog e o s).1
        from rfl]
      rw [hl2, hl]
      rfl
    · have h3 : (nativeLog e o s).1.eventBuffer ++ es <:+
          (s.eventBuffer ++ [e]) ++ es := by
        obtain ⟨p, hp⟩ := hs
        exact ⟨p, by rw [← List.append_assoc, hp]⟩
      have h4 := hs2.trans h3
      rwa [List.append_assoc, List.singleton_append] at h4

theorem mkEvents_length (n : Nat) : (mkEvents n).length = n := by
  simp [mkEvents]

theorem iterLen_no_trim : ∀ (n l : Nat), l + n ≤ 1000 → iterLen n l = l + n
  | 0, l, _ => by simp [iterLen]
  | n + 1, l, h => by
    rw [show iterLen (n + 1) l = iterLen n (stepLen l) from rfl]
    have hs : stepLen l = l + 1 := by unfold stepLen; rw [if_neg (by omega)]
    rw [hs, iterLen_no_trim n (l + 1) (by omega)]
    omega

theorem iterLen_add (a b l : Nat) : iterLen (a + b) l = iterLen b (iterLen a l) := by
  induction a generalizing l with
  | zero => simp [iterLen]
  | succ a ih =>
    rw [show a + 1 + b = (a + b) + 1 from by omega]
    rw [show iterLen ((a + b) + 1) l = iterLen (a + b) (stepLen l) from rfl]
    rw [ih]
    rfl

/-- From an empty buffer, 1500 disconnected appends leave length 999: the
first 1000 grow it to 1000, append 1001 trims to 500, and the last 499
grow it to 999. -/
theorem iterLen_1500 : iterLen 1500 0 = 999 := by
  have h1 : iterLen 1000 0 = 1000 := by
    have h := iterLen_no_trim 1000 0 (by omega)
    simpa using h
  have h2 : iterLen 1001 0 = 500 := by
    rw [show (1001 : Nat) = 1000 + 1 from by omega, iterLen_add, h1]
    decide
  rw [show (1500 : Nat) = 1001 + 499 from by omega, iterLen_add, h2]
  have h := iterLen_no_trim 499 500 (by omega)
  simpa using h

/-- C7 (amended): the offline buffer is bounded, but the trim is not a
drop-oldest-to-1000 FIFO: a disconnected `log` appends the event and then,
only if the length exceeds 1000, replaces the buffer by its most recent
500 entries.  The buffer is always a suffix (the most recent entries) of
the arrival sequence; issuing 1500 `log` calls while disconnected from an
empty buffer leaves exactly the most recent 999 events, not 1000. -/
theorem offline_buffer_bound (e : Event) (o : SendOutcome) (s : NativeState)
    (h : s.connected = false) :
    (s.eventBuffer.length + 1 ≤ 1000 →
      (nativeLog e o s).1.eventBuffer = s.eventBuffer ++ [e]) ∧
    (1000 < s.eventBuffer.length + 1 →
      (nativeLog e o s).1.eventBuffer =
        (s.eventBuffer ++ [e]).drop (s.eventBuffer.length + 1 - 500)) ∧
    (∀ es : List Event,
      (runNativeLogs o es s).eventBuffer <:+ s.eventBuffer ++ es) ∧
    (runNativeLogs SendOutcome.timeout (mkEvents 1500)
        initialNativeState).eventBuffer.length = 999 := by
  refine ⟨?_, ?_, ?_, ?_⟩
  · intro hle
    unfold nativeLog
    rw [h]
    simp only [Bool.false_eq_true, if_false]
    rw [if_neg (by simp only [List.length_append, List.length_cons,
      List.length_nil]; omega)]
  · intro hgt
    unfold nativeLog
    rw [h]
    simp only [Bool.false_eq_true, if_false]
    rw [if_pos (by simp only [List.length_append, List.length_cons,
      List.length_nil]; omega)]
    simp only [List.length_append, List.length_cons, List.length_nil]
  · intro es
    exact (runNativeLogs_disconnected o es s h).2.2
  · have h15 := (runNativeLogs_disconnected SendOutcome.timeout (mkEvents 1500)
      initialNativeState rfl).2.1
    rw [h15, mkEvents_length]
    exact iterLen_1500

/-- Witness for `offline_buffer_bound`: the append-below-cap branch and
the 1500-call scenario at the fresh disconnected state. -/
theorem offline_buffer_bound_witness :
    (nativeLog sampleEvent SendOutcome.timeout initialNativeState).1.eventBuffer =
      initialNativeState.eventBuffer ++ [sampleEvent] ∧
    (runNativeLogs SendOutcome.timeout (mkEvents 1500)
        initialNativeState).eventBuffer.length = 999 := by
  have h := offline_buffer_bound sampleEvent SendOutcome.timeout
    initialNativeState rfl
  exact ⟨h.1 (by decide), h.2.2.2⟩

/-- C7 (counterexample): the claim says 1500 `log()` calls issued while
disconnected leave the buffer holding exactly the most recent 1000
events.  From the fresh state, call 1001 trims the buffer to 500 entries
(`slice(-500)`), and the remaining 499 calls grow it back only to 999. -/
theorem offline_buffer_1500_keeps_999_not_1000 :
    (runNativeLogs SendOutcome.timeout (mkEvents 1500)
        initialNativeState).eventBuffer.length ≠ 1000 := by
  have h15 := (runNativeLogs_disconnected SendOutcome.timeout (mkEvents 1500)
    initialNativeState rfl).2.1
  rw [h15, mkEvents_length]
  rw [show iterLen 1500 initialNativeState.eventBuffer.length = 999 from iterLen_1500]
  omega

/-! ## C8 — timeout/send-failure path buffers exactly once -/

theorem sendMessage_effects (o : SendOutcome) (s : NativeState) :
    (sendMessage o s).1.eventBuffer = s.eventBuffer ∧
    (sendMessage o s).1.connected = s.connected ∧
    (sendMessage o s).1.callbacks =
      (s.callbacks ++ [s.messageId + 1]).filter (fun i => i ≠ s.messageId + 1) ∧
    ((sendMessage o s).2 = true ↔ o = SendOutcome.ok) := by
  cases o <;> simp [sendMessage]

/-- With every pending correlation id at most the current `messageId`
(ids are allocated by incrementing it, so this always holds), registering
the fresh id and then deleting it restores the pending map. -/
theorem callbacks_delete_fresh (s : NativeState)
    (hfresh : ∀ i ∈ s.callbacks, i ≤ s.messageId) :
    (s.callbacks ++ [s.messageId + 1]).filter
      (fun i => i ≠ s.messageId + 1) = s.callbacks := by
  rw [List.filter_append]
  have h1 : s.callbacks.filter (fun i => i ≠ s.messageId + 1) = s.callbacks :=
    List.filter_eq_self.mpr fun a ha =>
      decide_eq_true (by have := hfresh a ha; omega)
  rw [h1]
  simp

/-- C8: a `log()` issued while connected whose correlated request times
out or whose send throws ends with the event appended to the offline
retry buffer exactly once (the buffer becomes exactly the old buffer plus
that one event — neither duplicated nor dropped), and the pending-request
entry for the allocated correlation id is removed: the pending map is
back to what it was, and the id is not in it. -/
theorem native_failed_send_buffers_once (e : Event) (o : SendOutcome)
    (s : NativeState) (hc : s.connected = true) (ho : o ≠ SendOutcome.ok)
    (hfresh : ∀ i ∈ s.callbacks, i ≤ s.messageId) :
    (nativeLog e o s).1.eventBuffer = s.eventBuffer ++ [e] ∧
    (nativeLog e o s).1.callbacks = s.callbacks ∧
    s.messageId + 1 ∉ (nativeLog e o s).1.callbacks := by
  obtain ⟨hbuf, _, hcb, hok⟩ := sendMessage_effects o s
  have hfail : (sendMessage o s).2 = false := by
    cases o
    · exact absurd rfl ho
    · rfl
    · rfl
  unfold nativeLog
  rw [hc]
  simp only [if_true, hfail, Bool.false_eq_true, if_false]
  have hres : (sendMessage o s).1.callbacks = s.callbacks := by
    rw [hcb]
    exact callbacks_delete_fresh s hfresh
  refine ⟨by rw [hbuf], hres, ?_⟩
  rw [hres]
  intro hmem
  have := hfresh _ hmem
  omega

/-- Witness for `native_failed_send_buffers_once`: a connected state with
two pending requests and a request that times out. -/
theorem native_failed_send_buffers_once_witness :
    (nativeLog sampleEvent SendOutcome.timeout
        { connected := true, eventBuffer := [sampleEvent2], messageId := 7,
          callbacks := [3, 5] }).1.eventBuffer = [sampleEvent2] ++ [sampleEvent] ∧
    (nativeLog sampleEvent SendOutcome.timeout
        { connected := true, eventBuffer := [sampleEvent2], messageId := 7,
          callbacks := [3, 5] }).1.callbacks = [3, 5] := by
  have h := native_failed_send_buffers_once sampleEvent SendOutcome.timeout
    { connected := true, eventBuffer := [sampleEvent2], messageId := 7,
      callbacks := [3, 5] } rfl (by decide) (by decide)
  exact ⟨h.1, h.2.1⟩

/-! ## C10 — connected-path failures bypass the cap -/

/-- C10: when a `log()` issued while connected fails to deliver (timeout
or send error), the event is appended to the retry buffer with no cap
check — the trim runs only on the disconnected branch — so each such
failure grows the buffer by one unconditionally, and a buffer already at
the 1000-entry cap grows beyond it. -/
theorem connected_failure_bypasses_cap (e : Event) (o : SendOutcome)
    (s : NativeState) (hc : s.connected = true) (ho : o ≠ SendOutcome.ok) :
    (nativeLog e o s).1.eventBuffer = s.eventBuffer ++ [e] ∧
    (nativeLog e o s).1.eventBuffer.length = s.eventBuffer.length + 1 ∧
    (1000 ≤ s.eventBuffer.length →
      1000 < (nativeLog e o s).1.eventBuffer.length) := by
  obtain ⟨hbuf, _, _, _⟩ := sendMessage_effects o s
  have hfail : (sendMessage o s).2 = false := by
    cases o
    · exact absurd rfl ho
    · rfl
    · rfl
  unfold nativeLog
  rw [hc]
  simp only [if_true, hfail, Bool.false_eq_true, if_false]
  refine ⟨by rw [hbuf], ?_, ?_⟩
  · rw [hbuf]
    simp
  · intro hcap
    rw [hbuf]
    simp only [List.length_append, List.length_cons, List.length_nil]
    omega

/-- Witness for `connected_failure_bypasses_cap`: a connected state whose
retry buffer already holds 1000 events grows to 1001 on a timed-out
`log()`. -/
theorem connected_failure_bypasses_cap_witness :
    1000 < (nativeLog sampleEvent SendOutcome.sendError
        { connected := true, eventBuffer := mkEvents 1000, messageId := 0,
          callbacks := [] }).1.eventBuffer.length := by
  have h := connected_failure_bypasses_cap sampleEvent SendOutcome.sendError
    { connected := true, eventBuffer := mkEvents 1000, messageId := 0,
      callbacks := [] } rfl (by decide)
  exact h.2.2 (by rw [mkEvents_length])

/-! ## C9 — no single-flight flush guard -/

/-- A state in the current partition holding one buffered event, as left
by earlier logging. -/
def flushDemoState : LoggerState :=
  { initialState with
    events := [sampleEvent]
    currentBufferSize := 120
    config := { initialState.config with
      currentPartition := some (getPartitionKey sampleDate) } }

/-- C9 (counterexample): the claim says a flush request arriving while
another flush is already exporting is coalesced into a no-op, so two
flushes never run concurrently.  `flushToFile` has no in-flight guard:
interleaving two invocations over a one-event store so that the second
takes its snapshot while the first awaits its download makes both
download — the same event is exported twice under the same filename, and
the second flush finishes with a filename result, not a no-op. -/
theorem concurrent_flush_double_export :
    (runTwoFlushes sampleDate [false, false, true, true, false, true]
        (flushDemoState, FlushPC.entered, FlushPC.entered)).1.downloads =
      [("openbdr_logs/year=2024/month=01/day=15/hour=23/events_001.jsonl",
          [sampleEvent]),
        ("openbdr_logs/year=2024/month=01/day=15/hour=23/events_001.jsonl",
          [sampleEvent])] ∧
    (runTwoFlushes sampleDate [false, false, true, true, false, true]
        (flushDemoState, FlushPC.entered, FlushPC.entered)).2.2 =
      FlushPC.finished (Except.ok
        (some "openbdr_logs/year=2024/month=01/day=15/hour=23/events_001.jsonl")) := by
  decide

/-- C9 (amended): there is no single-flight guard in `flushToFile`, and
concurrent flushes are not coalesced: for any nonempty store in the
current partition, under the interleaving in which both invocations
snapshot the store before either download resolves, both invocations
finish with the same successful filename result, the same buffered events
are downloaded twice, and `fileSequence` advances twice. -/
theorem flushes_not_coalesced (s : LoggerState) (now : DateParts)
    (hpart : s.config.currentPartition = some (getPartitionKey now))
    (hne : s.events ≠ []) :
    (runTwoFlushes now [false, false, true, true, false, true]
        (s, FlushPC.entered, FlushPC.entered)).2.1 =
      FlushPC.finished (Except.ok (some (getFilename now s))) ∧
    (runTwoFlushes now [false, false, true, true, false, true]
        (s, FlushPC.entered, FlushPC.entered)).2.2 =
      FlushPC.finished (Except.ok (some (getFilename now s))) ∧
    (runTwoFlushes now [false, false, true, true, false, true]
        (s, FlushPC.entered, FlushPC.entered)).1.downloads =
      s.downloads ++ [(getFilename now s, s.events), (getFilename now s, s.events)] ∧
    (runTwoFlushes now [false, false, true, true, false, true]
        (s, FlushPC.entered, FlushPC.entered)).1.config.fileSequence =
      s.config.fileSequence + 2 := by
  have hid := checkPartitionChange_same now s hpart
  have h1 : flushStep now true s FlushPC.entered = (s, FlushPC.partitionChecked) := by
    unfold flushStep
    rw [hid]
  have h2 : flushStep now true s FlushPC.partitionChecked =
      (s, FlushPC.downloading s.events (getFilename now s)) := by
    unfold flushStep
    simp [List.isEmpty_iff, hne]
  have h5 : flushStep now true s
      (FlushPC.downloading s.events (getFilename now s)) =
      ({ events := []
         currentBufferSize := 0
         config := { s.config with fileSequence := s.config.fileSequence + 1 }
         downloads := s.downloads ++ [(getFilename now s, s.events)] },
        FlushPC.finished (Except.ok (some (getFilename now s)))) := by
    unfold flushStep clearEvents
    simp
  have h6 : flushStep now true
      { events := []
        currentBufferSize := 0
        config := { s.config with fileSequence := s.config.fileSequence + 1 }
        downloads := s.downloads ++ [(getFilename now s, s.events)] }
      (FlushPC.downloading s.events (getFilename now s)) =
      ({ events := []
         currentBufferSize := 0
         config := { s.config with fileSequence := s.config.fileSequence + 1 + 1 }
         downloads := s.downloads ++ [(getFilename now s, s.events)] ++
           [(getFilename now s, s.events)] },
        FlushPC.finished (Except.ok (some (getFilename now s)))) := by
    unfold flushStep clearEvents
    simp
  simp only [runTwoFlushes, Bool.false_eq_true, if_false, if_true, h1, h2, h5, h6]
  simp [List.append_assoc]

/-- Witness for `flushes_not_coalesced` at the concrete one-event state. -/
theorem flushes_not_coalesced_witness :
    (runTwoFlushes sampleDate [false, false, true, true, false, true]
        (flushDemoState, FlushPC.entered, FlushPC.entered)).1.downloads =
      flushDemoState.downloads ++
        [(getFilename sampleDate flushDemoState, flushDemoState.events),
          (getFilename sampleDate flushDemoState, flushDemoState.events)] ∧
    (runTwoFlushes sampleDate [false, false, true, true, false, true]
        (flushDemoState, FlushPC.entered, FlushPC.entered)).1.config.fileSequence =
      flushDemoState.config.fileSequence + 2 := by
  have h := flushes_not_coalesced flushDemoState sampleDate rfl (by decide)
  exact ⟨h.2.2.1, h.2.2.2⟩

end OpenBDR
